import Mathlib

/-!
Verification of the pdt repository (pdtcore, pdtserver, pdtclient) against its
natural-language specification.

The wire protocol (pdtcore/src/lib.rs) serialises `Message` values with
bincode 2 under `bincode::config::standard()`: variable-length integer
encoding (a value below 251 is one byte; markers 251/252/253 announce a
little-endian u16/u32/u64), enum discriminants encoded as u32 varints, and
strings encoded as a u64 varint length followed by their UTF-8 bytes.
Rust `String`s are modelled as their byte lists; bincode's UTF-8 validation,
which always succeeds on the bytes of a real Rust `String`, is not modelled.
`bincode::decode_from_reader` reads through an `IoReader`, which wraps every
underlying io failure of `read_exact` (including a clean EOF, surfaced by
`read_exact` as `UnexpectedEof`) into `DecodeError::Io`.
-/

namespace Pdt

/-- Bytes of a Rust `String` (its UTF-8 encoding). -/
abbrev Str := List Nat

/-- `DeviceInfo` from pdtcore/src/lib.rs. -/
structure DeviceInfo where
  name : Str
  os : Str
  os_version : Str
  uptime : Str
deriving DecidableEq, Repr

/-- `BuiltInfo` from pdtcore/src/lib.rs. -/
structure BuiltInfo where
  pkg_version : Str
  pkg_version_major : Str
  pkg_version_minor : Str
  pkg_version_patch : Str
  pkg_version_pre : Str
  target : Str
  host : Str
  profile : Str
deriving DecidableEq, Repr

/-- `BuiltInfo::compatible`: major and minor package versions agree. -/
def BuiltInfo.compatible (self other : BuiltInfo) : Bool :=
  self.pkg_version_major == other.pkg_version_major &&
    self.pkg_version_minor == other.pkg_version_minor

/-- `ClientIntroduction` from pdtcore/src/lib.rs. -/
structure ClientIntroduction where
  name : Str
  pdtcore_built_info : BuiltInfo
deriving DecidableEq, Repr

/-- `ClientMessage` from pdtcore/src/lib.rs (message for a client). -/
inductive ClientMessage
  | ScreenOff
  | ScreenOn
  | PowerOff
  | Restart
  | Goodbye
  | RequestDeviceInfo
deriving DecidableEq, Repr

/-- `ServerMessage` from pdtcore/src/lib.rs (message for a server).
`Hello` carries a `Box<ClientIntroduction>`; bincode encodes through the box. -/
inductive ServerMessage
  | Hello (intro : ClientIntroduction)
  | DeviceInfo (info : DeviceInfo)
  | Goodbye
deriving DecidableEq, Repr

/-- `Message` from pdtcore/src/lib.rs: the complete protocol message type. -/
inductive Message
  | Client (m : ClientMessage)
  | Server (m : ServerMessage)
deriving DecidableEq, Repr

/-! Byte-level encoding (bincode 2, standard configuration). -/

/-- Little-endian byte decomposition, `k` bytes. -/
def toLEBytes : Nat → Nat → List Nat
  | 0, _ => []
  | k + 1, n => n % 256 :: toLEBytes k (n / 256)

/-- Little-endian byte recomposition. -/
def fromLEBytes : List Nat → Nat
  | [] => 0
  | b :: bs => b + 256 * fromLEBytes bs

/-- bincode standard-config varint encoding of an unsigned integer that fits
in a u64 (lengths are usize, discriminants u32; both fit). -/
def varintEncode (n : Nat) : List Nat :=
  if n < 251 then [n]
  else if n < 2 ^ 16 then 251 :: toLEBytes 2 n
  else if n < 2 ^ 32 then 252 :: toLEBytes 4 n
  else 253 :: toLEBytes 8 n

/-- The io error kind `read_exact` reports when the modelled stream is
exhausted: a clean EOF surfaces as `unexpectedEof`, any other socket-level
failure as `other`. -/
inductive IoErrorKind
  | unexpectedEof
  | other
deriving DecidableEq, Repr

/-- A read stream: the bytes still available, and the io error kind a read
past the end runs into (clean EOF or a socket failure). -/
structure ByteStream where
  data : List Nat
  tailError : IoErrorKind
deriving DecidableEq, Repr

/-- `bincode::error::DecodeError`, restricted to the variants reachable
here: `Io` (an io failure wrapped by bincode's `IoReader`, with the number
of additionally requested bytes), `UnexpectedVariant`, and the invalid
varint-marker errors collapsed into `InvalidInteger`. -/
inductive DecodeError
  | Io (kind : IoErrorKind) (additional : Nat)
  | UnexpectedVariant (found : Nat)
  | InvalidInteger
deriving DecidableEq, Repr

/-- `bincode::error::EncodeError` (never produced for this message type). -/
inductive EncodeError
  | other
deriving DecidableEq, Repr

/-- `ProtocolError` from pdtcore/src/lib.rs. `Io` models the Rust `IO`
variant holding an `std::io::Error`. -/
inductive ProtocolError
  | Io (e : IoErrorKind)
  | Encode (e : EncodeError)
  | Decode (e : DecodeError)
deriving DecidableEq, Repr

/-- `read_exact` through bincode's `IoReader`: take `n` bytes or fail with
`DecodeError::Io` carrying the stream's io error kind. -/
def readExact (n : Nat) (s : ByteStream) : Except DecodeError (List Nat × ByteStream) :=
  if n ≤ s.data.length then
    .ok (s.data.take n, ⟨s.data.drop n, s.tailError⟩)
  else
    .error (.Io s.tailError n)

/-- Read a single byte. -/
def read1 (s : ByteStream) : Except DecodeError (Nat × ByteStream) :=
  match s.data with
  | [] => .error (.Io s.tailError 1)
  | b :: rest => .ok (b, ⟨rest, s.tailError⟩)

/-- bincode varint decoding of a u64 (used for string lengths). A marker for
a wider integer than u64 is an error. -/
def decodeU64Varint (s : ByteStream) : Except DecodeError (Nat × ByteStream) :=
  match read1 s with
  | .error e => .error e
  | .ok (b, s1) =>
    if b < 251 then .ok (b, s1)
    else if b = 251 then
      match readExact 2 s1 with
      | .error e => .error e
      | .ok (bs, s2) => .ok (fromLEBytes bs, s2)
    else if b = 252 then
      match readExact 4 s1 with
      | .error e => .error e
      | .ok (bs, s2) => .ok (fromLEBytes bs, s2)
    else if b = 253 then
      match readExact 8 s1 with
      | .error e => .error e
      | .ok (bs, s2) => .ok (fromLEBytes bs, s2)
    else .error .InvalidInteger

/-- bincode varint decoding of a u32 (used for enum discriminants). A marker
for a wider integer than u32 is an error. -/
def decodeU32Varint (s : ByteStream) : Except DecodeError (Nat × ByteStream) :=
  match read1 s with
  | .error e => .error e
  | .ok (b, s1) =>
    if b < 251 then .ok (b, s1)
    else if b = 251 then
      match readExact 2 s1 with
      | .error e => .error e
      | .ok (bs, s2) => .ok (fromLEBytes bs, s2)
    else if b = 252 then
      match readExact 4 s1 with
      | .error e => .error e
      | .ok (bs, s2) => .ok (fromLEBytes bs, s2)
    else .error .InvalidInteger

/-- Encode a string: u64 varint length, then the bytes. -/
def encodeStr (s : Str) : List Nat := varintEncode s.length ++ s

/-- Decode a string: u64 varint length, then that many bytes. -/
def decodeStr (s : ByteStream) : Except DecodeError (Str × ByteStream) :=
  match decodeU64Varint s with
  | .error e => .error e
  | .ok (len, s1) => readExact len s1

/-- Encode `DeviceInfo`: its four string fields in declaration order. -/
def encodeDeviceInfo (d : DeviceInfo) : List Nat :=
  encodeStr d.name ++ encodeStr d.os ++ encodeStr d.os_version ++ encodeStr d.uptime

/-- Decode `DeviceInfo`. -/
def decodeDeviceInfo (s : ByteStream) : Except DecodeError (DeviceInfo × ByteStream) :=
  match decodeStr s with
  | .error e => .error e
  | .ok (name, s1) =>
    match decodeStr s1 with
    | .error e => .error e
    | .ok (os, s2) =>
      match decodeStr s2 with
      | .error e => .error e
      | .ok (os_version, s3) =>
        match decodeStr s3 with
        | .error e => .error e
        | .ok (uptime, s4) => .ok (⟨name, os, os_version, uptime⟩, s4)

/-- Encode `BuiltInfo`: its eight string fields in declaration order. -/
def encodeBuiltInfo (b : BuiltInfo) : List Nat :=
  encodeStr b.pkg_version ++ encodeStr b.pkg_version_major ++
    encodeStr b.pkg_version_minor ++ encodeStr b.pkg_version_patch ++
    encodeStr b.pkg_version_pre ++ encodeStr b.target ++
    encodeStr b.host ++ encodeStr b.profile

/-- Decode `BuiltInfo`. -/
def decodeBuiltInfo (s : ByteStream) : Except DecodeError (BuiltInfo × ByteStream) :=
  match decodeStr s with
  | .error e => .error e
  | .ok (pkg_version, s1) =>
    match decodeStr s1 with
    | .error e => .error e
    | .ok (major, s2) =>
      match decodeStr s2 with
      | .error e => .error e
      | .ok (minor, s3) =>
        match decodeStr s3 with
        | .error e => .error e
        | .ok (patch, s4) =>
          match decodeStr s4 with
          | .error e => .error e
          | .ok (pre, s5) =>
            match decodeStr s5 with
            | .error e => .error e
            | .ok (target, s6) =>
              match decodeStr s6 with
              | .error e => .error e
              | .ok (host, s7) =>
                match decodeStr s7 with
                | .error e => .error e
                | .ok (profile, s8) =>
                  .ok (⟨pkg_version, major, minor, patch, pre, target, host, profile⟩, s8)

/-- Encode `ClientIntroduction`: name then built info. -/
def encodeClientIntroduction (c : ClientIntroduction) : List Nat :=
  encodeStr c.name ++ encodeBuiltInfo c.pdtcore_built_info

/-- Decode `ClientIntroduction`. -/
def decodeClientIntroduction (s : ByteStream) :
    Except DecodeError (ClientIntroduction × ByteStream) :=
  match decodeStr s with
  | .error e => .error e
  | .ok (name, s1) =>
    match decodeBuiltInfo s1 with
    | .error e => .error e
    | .ok (bi, s2) => .ok (⟨name, bi⟩, s2)

/-- Encode `ClientMessage`: u32 varint discriminant, no payloads. -/
def encodeClientMessage : ClientMessage → List Nat
  | .ScreenOff => varintEncode 0
  | .ScreenOn => varintEncode 1
  | .PowerOff => varintEncode 2
  | .Restart => varintEncode 3
  | .Goodbye => varintEncode 4
  | .RequestDeviceInfo => varintEncode 5

/-- Decode `ClientMessage`. -/
def decodeClientMessage (s : ByteStream) : Except DecodeError (ClientMessage × ByteStream) :=
  match decodeU32Varint s with
  | .error e => .error e
  | .ok (d, s1) =>
    match d with
    | 0 => .ok (.ScreenOff, s1)
    | 1 => .ok (.ScreenOn, s1)
    | 2 => .ok (.PowerOff, s1)
    | 3 => .ok (.Restart, s1)
    | 4 => .ok (.Goodbye, s1)
    | 5 => .ok (.RequestDeviceInfo, s1)
    | n + 6 => .error (.UnexpectedVariant (n + 6))

/-- Encode `ServerMessage`: u32 varint discriminant, then the payload. -/
def encodeServerMessage : ServerMessage → List Nat
  | .Hello intro => varintEncode 0 ++ encodeClientIntroduction intro
  | .DeviceInfo info => varintEncode 1 ++ encodeDeviceInfo info
  | .Goodbye => varintEncode 2

/-- Decode `ServerMessage`. -/
def decodeServerMessage (s : ByteStream) : Except DecodeError (ServerMessage × ByteStream) :=
  match decodeU32Varint s with
  | .error e => .error e
  | .ok (d, s1) =>
    match d with
    | 0 =>
      match decodeClientIntroduction s1 with
      | .error e => .error e
      | .ok (intro, s2) => .ok (.Hello intro, s2)
    | 1 =>
      match decodeDeviceInfo s1 with
      | .error e => .error e
      | .ok (info, s2) => .ok (.DeviceInfo info, s2)
    | 2 => .ok (.Goodbye, s1)
    | n + 3 => .error (.UnexpectedVariant (n + 3))

/-- Encode `Message`: u32 varint discriminant, then the payload. This is the
byte sequence `bincode::encode_to_vec(self, standard())` produces inside
`Message::send`. -/
def encodeMessage : Message → List Nat
  | .Client m => varintEncode 0 ++ encodeClientMessage m
  | .Server m => varintEncode 1 ++ encodeServerMessage m

/-- Decode `Message`, as `bincode::decode_from_reader` does. -/
def decodeMessage (s : ByteStream) : Except DecodeError (Message × ByteStream) :=
  match decodeU32Varint s with
  | .error e => .error e
  | .ok (d, s1) =>
    match d with
    | 0 =>
      match decodeClientMessage s1 with
      | .error e => .error e
      | .ok (m, s2) => .ok (.Client m, s2)
    | 1 =>
      match decodeServerMessage s1 with
      | .error e => .error e
      | .ok (m, s2) => .ok (.Server m, s2)
    | n + 2 => .error (.UnexpectedVariant (n + 2))

/-- `Message::send`, encode side: the bytes written to the stream
(`write_all` of the bincode encoding; encoding of this type never fails). -/
def Message.sendBytes (m : Message) : List Nat := encodeMessage m

/-- `Message::receive`: decode one message from the stream; the `?` operator
converts the `DecodeError` of `decode_from_reader` into `ProtocolError`
through `From<DecodeError>`, i.e. into the `Decode` variant. The `BufReader`
is local to the call, so any unconsumed buffered bytes are dropped. -/
def Message.receive (s : ByteStream) : Except ProtocolError Message :=
  match decodeMessage s with
  | .error e => .error (ProtocolError.Decode e)
  | .ok (m, _) => .ok m

/-! Well-formedness: what it takes for a model value to be constructible in
the program. A Rust `String` holds at most `usize::MAX` (< 2^64) bytes, each
a u8 (< 256). -/

/-- The model string is the byte list of a constructible Rust `String`. -/
def StrWf (s : Str) : Prop := s.length < 2 ^ 64 ∧ ∀ b ∈ s, b < 256

instance (s : Str) : Decidable (StrWf s) := by unfold StrWf; infer_instance

/-- Constructible `DeviceInfo`. -/
def DeviceInfoWf (d : DeviceInfo) : Prop :=
  StrWf d.name ∧ StrWf d.os ∧ StrWf d.os_version ∧ StrWf d.uptime

instance (d : DeviceInfo) : Decidable (DeviceInfoWf d) := by
  unfold DeviceInfoWf; infer_instance

/-- Constructible `BuiltInfo`. -/
def BuiltInfoWf (b : BuiltInfo) : Prop :=
  StrWf b.pkg_version ∧ StrWf b.pkg_version_major ∧ StrWf b.pkg_version_minor ∧
    StrWf b.pkg_version_patch ∧ StrWf b.pkg_version_pre ∧ StrWf b.target ∧
    StrWf b.host ∧ StrWf b.profile

instance (b : BuiltInfo) : Decidable (BuiltInfoWf b) := by
  unfold BuiltInfoWf; infer_instance

/-- Constructible `ClientIntroduction`. -/
def ClientIntroductionWf (c : ClientIntroduction) : Prop :=
  StrWf c.name ∧ BuiltInfoWf c.pdtcore_built_info

instance (c : ClientIntroduction) : Decidable (ClientIntroductionWf c) := by
  unfold ClientIntroductionWf; infer_instance

/-- Constructible `Message`. -/
def MessageWf : Message → Prop
  | .Client _ => True
  | .Server (.Hello intro) => ClientIntroductionWf intro
  | .Server (.DeviceInfo info) => DeviceInfoWf info
  | .Server .Goodbye => True

instance (m : Message) : Decidable (MessageWf m) := by
  unfold MessageWf
  match m with
  | .Client _ => infer_instance
  | .Server (.Hello _) => infer_instance
  | .Server (.DeviceInfo _) => infer_instance
  | .Server .Goodbye => infer_instance

/-- True exactly on the `IO` variant of `ProtocolError` (modelled as `Io`). -/
def resultIsIoError : Except ProtocolError Message → Bool
  | .error (ProtocolError.Io _) => true
  | _ => false

/-- A concrete message for witnesses: a `Hello` carrying name "ASH" and a
small build info (byte values are ASCII codes). -/
def exampleHello : Message :=
  Message.Server (ServerMessage.Hello
    ⟨[65, 83, 72],
      ⟨[48, 46, 49, 46, 48], [48], [49], [48], [], [120], [104], [100]⟩⟩)

/-! Server model (pdtserver/src/server.rs). Session ids (`Ulid`) are
modelled as naturals; the registry `HashMap<Ulid, ServerClient>` as an
association list; a client's mpsc channel as the list of messages enqueued
on it plus a flag recording whether its receiver has been dropped (a send
on a dropped channel fails, and the dispatcher's `.unwrap()` on it panics).
Panics (`unreachable!`, `todo!`, `Option::unwrap` on `None`,
`Result::unwrap` on `Err`) are explicit outcomes of a dispatch step. -/

/-- How a dispatch step can panic. -/
inductive PanicKind
  | unreachableCode
  | todoCode
  | unwrapNone
  | unwrapSendFailed
deriving DecidableEq, Repr

/-- Result of running a code fragment that may panic. -/
inductive StepResult (α : Type)
  | ok (a : α)
  | panic (k : PanicKind)
deriving DecidableEq, Repr

namespace Server

/-- `ServerClient` from pdtserver/src/server.rs; `outbox` is the queue of
messages sent on its channel, `senderClosed` whether the channel's receiver
(held by the writer thread) is gone. -/
structure ServerClient where
  id : Nat
  pdtcore_built_info : Option BuiltInfo
  device_info : Option DeviceInfo
  senderClosed : Bool
  outbox : List Message
deriving DecidableEq, Repr

/-- The registry map, keyed by session id. -/
abbrev Registry := List (Nat × ServerClient)

/-- `HashMap::get` / `get_mut` on the modelled registry. -/
def lookupClient (reg : Registry) (id : Nat) : Option ServerClient :=
  match reg with
  | [] => none
  | (k, c) :: rest => if k = id then some c else lookupClient rest id

/-- Write back a mutated entry (the effect of mutating through `get_mut`). -/
def updateClient (reg : Registry) (id : Nat) (c : ServerClient) : Registry :=
  match reg with
  | [] => []
  | (k, c0) :: rest =>
    if k = id then (k, c) :: rest else (k, c0) :: updateClient rest id c

/-- `ServerEvent` from pdtserver/src/server.rs. -/
inductive ServerEvent
  | IncomingMessage (id : Nat) (m : Message)
  | Unexpected (e : ProtocolError)
deriving DecidableEq, Repr

/-- `mpsc::Sender::send` on a client's channel: fails (returns `Err`) iff
the receiver has been dropped, otherwise enqueues the message. -/
def channelSend (c : ServerClient) (m : Message) : Option ServerClient :=
  if c.senderClosed then none else some { c with outbox := c.outbox ++ [m] }

/-- One iteration of `Server::handle_messages` on a received event, with the
server's local `BuiltInfo::default()` passed in as `localBuild` (it comes
from the generated `built.rs`). Mirrors the dispatch `match`:
`Message::Client(_)` hits `unreachable!`; `Hello` unwraps the registry
lookup, sends `Goodbye` when the build infos are incompatible, records the
introduction's build info, and sends `RequestDeviceInfo` (each send
`.unwrap()`ed); `ServerMessage::Goodbye` hits `todo!`; `DeviceInfo` unwraps
the lookup and records the info; `Unexpected` only logs. -/
def handleEvent (localBuild : BuiltInfo) (reg : Registry) (ev : ServerEvent) :
    StepResult Registry :=
  match ev with
  | .IncomingMessage _ (Message.Client _) => .panic .unreachableCode
  | .IncomingMessage id (Message.Server sm) =>
    match sm with
    | .Hello intro =>
      match lookupClient reg id with
      | none => .panic .unwrapNone
      | some client =>
        let afterGate : StepResult ServerClient :=
          if BuiltInfo.compatible localBuild intro.pdtcore_built_info then
            .ok client
          else
            match channelSend client (Message.Client ClientMessage.Goodbye) with
            | none => .panic .unwrapSendFailed
            | some c => .ok c
        match afterGate with
        | .panic k => .panic k
        | .ok c1 =>
          let c2 := { c1 with pdtcore_built_info := some intro.pdtcore_built_info }
          match channelSend c2 (Message.Client ClientMessage.RequestDeviceInfo) with
          | none => .panic .unwrapSendFailed
          | some c3 => .ok (updateClient reg id c3)
    | .Goodbye => .panic .todoCode
    | .DeviceInfo info =>
      match lookupClient reg id with
      | none => .panic .unwrapNone
      | some client => .ok (updateClient reg id { client with device_info := some info })
  | .Unexpected _ => .ok reg

/-- `SendError` from pdtserver/src/server.rs. -/
inductive SendError
  | ClientNotFound
  | SendChannel
  | Deadlock
deriving DecidableEq, Repr

/-- `Server::send`: look up the target's channel and enqueue the message.
Returns the result together with the registry afterwards (the registry is
only read, and mutated solely by enqueueing onto the target's channel).
`Deadlock` (lock poisoning) cannot arise in this sequential model. -/
def sendRun (reg : Registry) (toId : Nat) (m : Message) :
    Except SendError Unit × Registry :=
  match lookupClient reg toId with
  | none => (.error SendError.ClientNotFound, reg)
  | some client =>
    match channelSend client m with
    | none => (.error SendError.SendChannel, reg)
    | some c => (.ok (), updateClient reg toId c)

end Server

/-! Client model (pdtclient/src/main.rs). That binary targets an earlier
pdtcore revision whose `Message` has `Client`/`Server`/`Common` variants
(`CommonMessage::End`, `ServerMessage::Introduction`, a one-field
`DeviceInfo`); those wire types are modelled here under `C`-prefixed names.
The TCP stream is abstracted to the list of messages written to it. -/

namespace Client

/-- The client snapshot's `DeviceInfo` (only a name). -/
structure CDeviceInfo where
  name : Str
deriving DecidableEq, Repr

/-- The client snapshot's `ClientMessage`. -/
inductive CClientMessage
  | ScreenOff
  | PowerOff
  | Restart
deriving DecidableEq, Repr

/-- The client snapshot's `ServerMessage`. -/
inductive CServerMessage
  | Introduction (d : CDeviceInfo)
deriving DecidableEq, Repr

/-- The client snapshot's `CommonMessage`. -/
inductive CCommonMessage
  | End
deriving DecidableEq, Repr

/-- The client snapshot's `Message`. -/
inductive CMessage
  | Client (m : CClientMessage)
  | Server (m : CServerMessage)
  | Common (m : CCommonMessage)
deriving DecidableEq, Repr

/-- `ClientError` from pdtclient/src/main.rs (io payloads dropped). -/
inductive CClientError
  | Connect
  | Send
  | Receive (e : ProtocolError)
  | Shutdown
  | Command
  | Closed
deriving DecidableEq, Repr

/-- The client's cross-thread state: the shared shutdown-request flag, the
messages written to the socket, and whether the socket was shut down. -/
structure ClientState where
  shutdown_request_flag : Bool
  sent : List CMessage
  socketShutdown : Bool
deriving DecidableEq, Repr

/-- `Client::new`: the flag starts out false. -/
def initialClient : ClientState :=
  { shutdown_request_flag := false, sent := [], socketShutdown := false }

/-- `Client::request_shutdown`. The source writes
`*shutdown_request_ref = false;` — it stores `false` into the flag. -/
def request_shutdown (c : ClientState) : ClientState :=
  { c with shutdown_request_flag := false }

/-- `Client::shutdown_requested`: read the flag. -/
def shutdown_requested (c : ClientState) : Bool := c.shutdown_request_flag

/-- `Client::end`: send `CommonMessage::End` back and shut the socket down
(named `endSession` because `end` is reserved in Lean). -/
def endSession (c : ClientState) : ClientState :=
  { c with sent := c.sent ++ [CMessage.Common CCommonMessage.End],
           socketShutdown := true }

/-- `Client::handle_message`: `Server(_)` hits `unreachable!`;
`Common(End)` calls `request_shutdown`, then `end`, and returns
`Ok(false)`; `ScreenOff` invokes the external `xset` command (an opaque
side effect) and returns `Ok(true)`; `PowerOff` and `Restart` hit
`todo!`. -/
def handle_message (c : ClientState) (m : CMessage) : StepResult (ClientState × Bool) :=
  match m with
  | CMessage.Server _ => .panic .unreachableCode
  | CMessage.Common CCommonMessage.End =>
    .ok (endSession (request_shutdown c), false)
  | CMessage.Client a =>
    match a with
    | CClientMessage.ScreenOff => .ok (c, true)
    | CClientMessage.PowerOff => .panic .todoCode
    | CClientMessage.Restart => .panic .todoCode

/-- The sleep, in milliseconds, performed in the retry-loop iteration of
attempt number `retry` of `Client::receive` after that reconnect attempt
fails: `if retry > 10 { 1000 * retry } else { 1000 }`. -/
def sleepBeforeNext (retry : Nat) : Nat :=
  if retry > 10 then 1000 * retry else 1000

/-- The retry loop of `Client::receive` in the scenario the claims describe:
shutdown was not requested and every `reconnect()` call fails. `retry`
starts at 0; each iteration runs `while retry <= max_retries`, increments
`retry`, attempts to reconnect, and sleeps per the backoff on failure.
Returns the number of reconnection attempts performed, the list of sleeps
(attempt `n`'s sleep at position `n - 1`), and the final result
`Err(ClientError::Receive(error))` carrying the original receive error. -/
def retryLoop (retry max_retries : Nat) (error : ProtocolError) :
    Nat × List Nat × CClientError :=
  if retry ≤ max_retries then
    let rest := retryLoop (retry + 1) max_retries error
    (rest.1 + 1, sleepBeforeNext (retry + 1) :: rest.2.1, rest.2.2)
  else
    (0, [], CClientError.Receive error)
termination_by max_retries + 1 - retry
decreasing_by omega

end Client

/-! Concrete values for witnesses and counterexamples (byte values are ASCII
codes: the local build has package version "1.0.0", the introduced one
"2.0.0", an incompatible major). -/

/-- A server-local `BuiltInfo` with major "1", minor "0". -/
def exampleLocalBuild : BuiltInfo :=
  ⟨[49, 46, 48, 46, 48], [49], [48], [48], [], [120], [104], [100]⟩

/-- An introduction reporting major "2" — incompatible with
`exampleLocalBuild`. -/
def exampleIntro : ClientIntroduction :=
  ⟨[65, 83, 72], ⟨[50, 46, 48, 46, 48], [50], [48], [48], [], [120], [104], [100]⟩⟩

/-- A device info report (name "ASH"). -/
def exampleDeviceInfo : DeviceInfo := ⟨[65, 83, 72], [108], [120], [49]⟩

/-- A freshly registered session (id 7, open channel, empty metadata). -/
def exampleRegClient : Server.ServerClient := ⟨7, none, none, false, []⟩

/-- A registry holding only session 7. -/
def exampleRegistry : Server.Registry := [(7, exampleRegClient)]

/-- Session 7 after the incompatible `Hello` is dispatched: build info
recorded, and both `Goodbye` and `RequestDeviceInfo` on its channel. -/
def exampleClientAfterHello : Server.ServerClient :=
  { exampleRegClient with
      pdtcore_built_info := some exampleIntro.pdtcore_built_info,
      outbox := [Message.Client ClientMessage.Goodbye,
                 Message.Client ClientMessage.RequestDeviceInfo] }

/-- A session whose writer side has terminated (channel receiver dropped). -/
def exampleClosedClient : Server.ServerClient := ⟨9, none, none, true, []⟩

/-- A registry holding only the closed session 9. -/
def exampleRegistryClosed : Server.Registry := [(9, exampleClosedClient)]

/-- A concrete receive error for the client reconnect scenarios. -/
def exampleReceiveError : ProtocolError :=
  ProtocolError.Decode (DecodeError.Io IoErrorKind.other 1)

/-! Round-trip lemmas for the byte-level encoding. -/

theorem toLEBytes_length (k n : Nat) : (toLEBytes k n).length = k := by
  induction k generalizing n with
  | zero => rfl
  | succ k ih => simp [toLEBytes, ih]

theorem fromLEBytes_toLEBytes (k n : Nat) (h : n < 256 ^ k) :
    fromLEBytes (toLEBytes k n) = n := by
  induction k generalizing n with
  | zero => simp [toLEBytes, fromLEBytes]; omega
  | succ k ih =>
    have hdiv : n / 256 < 256 ^ k := by
      rw [Nat.div_lt_iff_lt_mul (by omega)]
      calc n < 256 ^ (k + 1) := h
        _ = 256 ^ k * 256 := by ring
    rw [toLEBytes, fromLEBytes, ih _ hdiv]
    omega

theorem readExact_append (bs rest : List Nat) (e : IoErrorKind) :
    readExact bs.length ⟨bs ++ rest, e⟩ = .ok (bs, ⟨rest, e⟩) := by
  simp [readExact, List.take_left, List.drop_left]

theorem readExact_append_len (n : Nat) (bs rest : List Nat) (e : IoErrorKind)
    (h : bs.length = n) :
    readExact n ⟨bs ++ rest, e⟩ = .ok (bs, ⟨rest, e⟩) := by
  subst h; exact readExact_append bs rest e

theorem decodeU64Varint_encode (n : Nat) (h : n < 2 ^ 64) (rest : List Nat)
    (e : IoErrorKind) :
    decodeU64Varint ⟨varintEncode n ++ rest, e⟩ = .ok (n, ⟨rest, e⟩) := by
  rw [varintEncode]
  by_cases h251 : n < 251
  · simp [h251, decodeU64Varint, read1]
  · by_cases h16 : n < 2 ^ 16
    · have hlen : (toLEBytes 2 n).length = 2 := toLEBytes_length 2 n
      simp only [h251, if_false, h16, if_true, List.cons_append, decodeU64Varint, read1]
      norm_num
      rw [readExact_append_len 2 _ _ _ hlen]
      dsimp only
      rw [fromLEBytes_toLEBytes 2 n (by norm_num at h16 ⊢; omega)]
    · by_cases h32 : n < 2 ^ 32
      · have hlen : (toLEBytes 4 n).length = 4 := toLEBytes_length 4 n
        simp only [h251, if_false, h16, if_false, h32, if_true, List.cons_append,
          decodeU64Varint, read1]
        norm_num
        rw [readExact_append_len 4 _ _ _ hlen]
        dsimp only
        rw [fromLEBytes_toLEBytes 4 n (by norm_num at h32 ⊢; omega)]
      · have hlen : (toLEBytes 8 n).length = 8 := toLEBytes_length 8 n
        simp only [h251, if_false, h16, if_false, h32, if_false, List.cons_append,
          decodeU64Varint, read1]
        norm_num
        rw [readExact_append_len 8 _ _ _ hlen]
        dsimp only
        rw [fromLEBytes_toLEBytes 8 n (by norm_num at h ⊢; omega)]

theorem decodeU32Varint_encode_small (n : Nat) (h : n < 251) (rest : List Nat)
    (e : IoErrorKind) :
    decodeU32Varint ⟨varintEncode n ++ rest, e⟩ = .ok (n, ⟨rest, e⟩) := by
  rw [varintEncode]
  simp [h, decodeU32Varint, read1]

theorem decodeStr_encode (s : Str) (h : s.length < 2 ^ 64) (rest : List Nat)
    (e : IoErrorKind) :
    decodeStr ⟨encodeStr s ++ rest, e⟩ = .ok (s, ⟨rest, e⟩) := by
  rw [encodeStr, List.append_assoc, decodeStr, decodeU64Varint_encode s.length h]
  dsimp only
  rw [readExact_append]

theorem decodeDeviceInfo_encode (d : DeviceInfo) (h : DeviceInfoWf d)
    (rest : List Nat) (e : IoErrorKind) :
    decodeDeviceInfo ⟨encodeDeviceInfo d ++ rest, e⟩ = .ok (d, ⟨rest, e⟩) := by
  obtain ⟨h1, h2, h3, h4⟩ := h
  rw [encodeDeviceInfo]
  simp only [List.append_assoc]
  rw [decodeDeviceInfo, decodeStr_encode _ h1.1]
  dsimp only
  rw [decodeStr_encode _ h2.1]
  dsimp only
  rw [decodeStr_encode _ h3.1]
  dsimp only
  rw [decodeStr_encode _ h4.1]

theorem decodeBuiltInfo_encode (b : BuiltInfo) (h : BuiltInfoWf b)
    (rest : List Nat) (e : IoErrorKind) :
    decodeBuiltInfo ⟨encodeBuiltInfo b ++ rest, e⟩ = .ok (b, ⟨rest, e⟩) := by
  obtain ⟨h1, h2, h3, h4, h5, h6, h7, h8⟩ := h
  rw [encodeBuiltInfo]
  simp only [List.append_assoc]
  rw [decodeBuiltInfo, decodeStr_encode _ h1.1]
  dsimp only
  rw [decodeStr_encode _ h2.1]
  dsimp only
  rw [decodeStr_encode _ h3.1]
  dsimp only
  rw [decodeStr_encode _ h4.1]
  dsimp only
  rw [decodeStr_encode _ h5.1]
  dsimp only
  rw [decodeStr_encode _ h6.1]
  dsimp only
  rw [decodeStr_encode _ h7.1]
  dsimp only
  rw [decodeStr_encode _ h8.1]

theorem decodeClientIntroduction_encode (c : ClientIntroduction)
    (h : ClientIntroductionWf c) (rest : List Nat) (e : IoErrorKind) :
    decodeClientIntroduction ⟨encodeClientIntroduction c ++ rest, e⟩ =
      .ok (c, ⟨rest, e⟩) := by
  obtain ⟨h1, h2⟩ := h
  rw [encodeClientIntroduction]
  simp only [List.append_assoc]
  rw [decodeClientIntroduction, decodeStr_encode _ h1.1]
  dsimp only
  rw [decodeBuiltInfo_encode _ h2]

theorem decodeClientMessage_encode (m : ClientMessage) (rest : List Nat)
    (e : IoErrorKind) :
    decodeClientMessage ⟨encodeClientMessage m ++ rest, e⟩ = .ok (m, ⟨rest, e⟩) := by
  cases m <;>
    · rw [encodeClientMessage, decodeClientMessage,
        decodeU32Varint_encode_small _ (by omega)]

theorem decodeServerMessage_encode (m : ServerMessage) (h : MessageWf (.Server m))
    (rest : List Nat) (e : IoErrorKind) :
    decodeServerMessage ⟨encodeServerMessage m ++ rest, e⟩ = .ok (m, ⟨rest, e⟩) := by
  cases m with
  | Hello intro =>
    rw [encodeServerMessage, List.append_assoc, decodeServerMessage,
      decodeU32Varint_encode_small _ (by omega)]
    dsimp only
    rw [decodeClientIntroduction_encode _ h]
  | DeviceInfo info =>
    rw [encodeServerMessage, List.append_assoc, decodeServerMessage,
      decodeU32Varint_encode_small _ (by omega)]
    dsimp only
    rw [decodeDeviceInfo_encode _ h]
  | Goodbye =>
    rw [encodeServerMessage, decodeServerMessage,
      decodeU32Varint_encode_small _ (by omega)]

theorem decodeMessage_encode (m : Message) (h : MessageWf m) (rest : List Nat)
    (e : IoErrorKind) :
    decodeMessage ⟨encodeMessage m ++ rest, e⟩ = .ok (m, ⟨rest, e⟩) := by
  cases m with
  | Client c =>
    rw [encodeMessage, List.append_assoc, decodeMessage,
      decodeU32Varint_encode_small _ (by omega)]
    dsimp only
    rw [decodeClientMessage_encode]
  | Server s =>
    rw [encodeMessage, List.append_assoc, decodeMessage,
      decodeU32Varint_encode_small _ (by omega)]
    dsimp only
    rw [decodeServerMessage_encode _ h]

namespace Client

theorem retryLoop_eq (max_retries : Nat) (e : ProtocolError) :
    ∀ k retry, max_retries + 1 - retry = k →
      retryLoop retry max_retries e =
        (k, (List.range' (retry + 1) k).map sleepBeforeNext,
          CClientError.Receive e) := by
  intro k
  induction k with
  | zero =>
    intro retry hk
    rw [retryLoop]
    simp only [show ¬retry ≤ max_retries by omega, if_false, List.range'_zero,
      List.map_nil]
  | succ k ih =>
    intro retry hk
    rw [retryLoop]
    simp only [show retry ≤ max_retries by omega, if_true]
    rw [ih (retry + 1) (by omega)]
    simp [List.range'_succ]

end Client

/-- C1: wire-protocol round-trip. For every constructible `Message` value
`m`, decoding the bytes produced by encoding `m` (`Message::send` writing
via bincode, `Message::receive` reading via bincode with the same standard
configuration) yields exactly `m`. -/
theorem C1_message_roundtrip (m : Message) (h : MessageWf m) (e : IoErrorKind) :
    Message.receive ⟨Message.sendBytes m, e⟩ = .ok m := by
  have hdec := decodeMessage_encode m h [] e
  rw [List.append_nil] at hdec
  rw [Message.sendBytes, Message.receive, hdec]

/-- Witness for C1 at a concrete `Hello` message. -/
theorem C1_message_roundtrip_witness :
    MessageWf exampleHello ∧
      Message.receive ⟨Message.sendBytes exampleHello, IoErrorKind.unexpectedEof⟩ =
        .ok exampleHello :=
  ⟨by decide, C1_message_roundtrip exampleHello (by decide) IoErrorKind.unexpectedEof⟩

/-- C5 counterexample: a read failure (here a clean EOF on an empty stream)
makes `Message::receive` return the `Decode` variant of `ProtocolError`
(wrapping bincode's `DecodeError::Io`), not the `IO` variant the claim
names. -/
theorem C5_counterexample :
    Message.receive ⟨[], IoErrorKind.unexpectedEof⟩ =
        .error (ProtocolError.Decode (DecodeError.Io IoErrorKind.unexpectedEof 1)) ∧
      resultIsIoError (Message.receive ⟨[], IoErrorKind.unexpectedEof⟩) = false :=
  ⟨rfl, rfl⟩

/-- C5 amended: every failure of `Message::receive` — malformed bytes and
read failures alike, a clean EOF included — is surfaced as the `Decode`
variant of `ProtocolError`, because `decode_from_reader` wraps io failures
into `DecodeError::Io` and the `?` operator converts any `DecodeError`
through `From<DecodeError>`; EOF is not a distinguished end-of-stream case,
and the `IO` variant is never produced by `receive`. -/
theorem C5_amended_receive_errors_decode (s : ByteStream) (e : ProtocolError)
    (h : Message.receive s = .error e) :
    ∃ d : DecodeError, e = ProtocolError.Decode d := by
  rw [Message.receive] at h
  rcases hd : decodeMessage s with de | p
  · rw [hd] at h
    exact ⟨de, by injection h with h'; exact h'.symm⟩
  · obtain ⟨m, s'⟩ := p
    rw [hd] at h
    cases h

/-- Witness for the amended C5 at the empty stream. -/
theorem C5_amended_witness :
    Message.receive ⟨[], IoErrorKind.unexpectedEof⟩ =
        .error (ProtocolError.Decode (DecodeError.Io IoErrorKind.unexpectedEof 1)) ∧
      ∃ d : DecodeError,
        ProtocolError.Decode (DecodeError.Io IoErrorKind.unexpectedEof 1) =
          ProtocolError.Decode d :=
  ⟨rfl, C5_amended_receive_errors_decode ⟨[], IoErrorKind.unexpectedEof⟩ _ rfl⟩

/-- C2 counterexample: a session with an open channel receives a `Hello`
whose `BuildInfo` is incompatible with the server's; the dispatcher
enqueues `Goodbye` and then also `RequestDeviceInfo` to it — refuting
"never enqueues RequestDeviceInfo". -/
theorem C2_counterexample_request_sent :
    BuiltInfo.compatible exampleLocalBuild exampleIntro.pdtcore_built_info = false ∧
      Server.handleEvent exampleLocalBuild exampleRegistry
          (Server.ServerEvent.IncomingMessage 7
            (Message.Server (ServerMessage.Hello exampleIntro))) =
        .ok [(7, exampleClientAfterHello)] ∧
      Message.Client ClientMessage.RequestDeviceInfo ∈ exampleClientAfterHello.outbox :=
  ⟨by decide, rfl, by decide⟩

/-- C2 amended: for every registered session with a live outbound channel
whose `Hello` handshake carries a `BuildInfo` incompatible with the
server's, the dispatcher enqueues `Goodbye` to that session and then also
enqueues `RequestDeviceInfo` to it (the request is sent regardless of
compatibility), recording the reported build info in between. -/
theorem C2_amended_incompatible_hello (lb : BuiltInfo) (reg : Server.Registry)
    (id : Nat) (intro : ClientIntroduction) (c : Server.ServerClient)
    (hc : Server.lookupClient reg id = some c) (hopen : c.senderClosed = false)
    (hincompat : BuiltInfo.compatible lb intro.pdtcore_built_info = false) :
    Server.handleEvent lb reg
        (Server.ServerEvent.IncomingMessage id
          (Message.Server (ServerMessage.Hello intro))) =
      .ok (Server.updateClient reg id
        { c with
            pdtcore_built_info := some intro.pdtcore_built_info,
            outbox := c.outbox ++
              [Message.Client ClientMessage.Goodbye,
               Message.Client ClientMessage.RequestDeviceInfo] }) := by
  simp only [Server.handleEvent, hc, hincompat, Server.channelSend, hopen,
    Bool.false_eq_true, if_false]
  simp [List.append_assoc]

/-- Witness for the amended C2 at the concrete incompatible handshake. -/
theorem C2_amended_witness :
    Server.lookupClient exampleRegistry 7 = some exampleRegClient ∧
      exampleRegClient.senderClosed = false ∧
      BuiltInfo.compatible exampleLocalBuild exampleIntro.pdtcore_built_info = false ∧
      Server.handleEvent exampleLocalBuild exampleRegistry
          (Server.ServerEvent.IncomingMessage 7
            (Message.Server (ServerMessage.Hello exampleIntro))) =
        .ok (Server.updateClient exampleRegistry 7
          { exampleRegClient with
              pdtcore_built_info := some exampleIntro.pdtcore_built_info,
              outbox := exampleRegClient.outbox ++
                [Message.Client ClientMessage.Goodbye,
                 Message.Client ClientMessage.RequestDeviceInfo] }) :=
  ⟨rfl, rfl, by decide,
    C2_amended_incompatible_hello exampleLocalBuild exampleRegistry 7 exampleIntro
      exampleRegClient rfl rfl (by decide)⟩

/-- C3: the claim says recording build info (`Hello`) or device info
(`DeviceInfo`) against an id absent from the registry must not panic. The
dispatcher calls `.get_mut(&id).unwrap()` in both branches, which panics on
`None`: the code contradicts the spec's explicit no-panic requirement. -/
theorem C3_absent_id_update_panics :
    Server.handleEvent exampleLocalBuild []
        (Server.ServerEvent.IncomingMessage 3
          (Message.Server (ServerMessage.Hello exampleIntro))) =
      .panic PanicKind.unwrapNone ∧
      Server.handleEvent exampleLocalBuild []
          (Server.ServerEvent.IncomingMessage 3
            (Message.Server (ServerMessage.DeviceInfo exampleDeviceInfo))) =
        .panic PanicKind.unwrapNone :=
  ⟨rfl, rfl⟩

/-- C4: the claim says dispatching `IncomingMessage(id, ServerMessage::
Goodbye)` does not panic and the loop continues. The `Goodbye` arm of
`Server::handle_messages` is `todo!()`, which panics — and the reader
forwards every received `Goodbye` to the dispatcher, so this is hit on any
clean session end. -/
theorem C4_goodbye_dispatch_panics (lb : BuiltInfo) (reg : Server.Registry)
    (id : Nat) :
    Server.handleEvent lb reg
        (Server.ServerEvent.IncomingMessage id
          (Message.Server ServerMessage.Goodbye)) =
      .panic PanicKind.todoCode := rfl

/-- C6: in the reconnect loop of `Client::receive`, the sleep performed in
the iteration of failed attempt number `n` is a fixed 1000 ms for attempts
1 through 10 and `1000 ms × n` for every attempt number beyond 10. -/
theorem C6_backoff_policy (max_retries n : Nat) (e : ProtocolError)
    (h1 : 1 ≤ n) (h2 : n ≤ max_retries + 1) :
    (Client.retryLoop 0 max_retries e).2.1.get? (n - 1) =
      some (if n ≤ 10 then 1000 else 1000 * n) := by
  rw [Client.retryLoop_eq max_retries e (max_retries + 1) 0 (by omega)]
  simp only
  rw [List.get?_map, List.get?_range' _ _ (show n - 1 < max_retries + 1 by omega)]
  simp only [Option.map_some']
  have hn : 0 + 1 + 1 * (n - 1) = n := by omega
  rw [hn, Client.sleepBeforeNext]
  by_cases h10 : n ≤ 10
  · rw [if_neg (by omega), if_pos h10]
  · rw [if_pos (by omega), if_neg h10]

/-- Witness for C6: with 12 consecutive failures, attempt 11 sleeps
11000 ms. -/
theorem C6_backoff_policy_witness :
    1 ≤ 11 ∧ 11 ≤ 12 + 1 ∧
      (Client.retryLoop 0 12 exampleReceiveError).2.1.get? (11 - 1) =
        some (if 11 ≤ 10 then 1000 else 1000 * 11) :=
  ⟨by decide, by decide,
    C6_backoff_policy 12 11 exampleReceiveError (by decide) (by decide)⟩

/-- C7 counterexample: with `max_retries = 0` the loop `while retry <=
max_retries` still performs one reconnection attempt, refuting "at most
max_retries attempts". -/
theorem C7_counterexample_extra_attempt :
    (Client.retryLoop 0 0 exampleReceiveError).1 = 1 ∧
      ¬(Client.retryLoop 0 0 exampleReceiveError).1 ≤ 0 := by
  rw [Client.retryLoop_eq 0 exampleReceiveError 1 0 (by omega)]
  exact ⟨rfl, by decide⟩

/-- C7 amended: after a receive error with shutdown not requested, if every
reconnect fails the client performs exactly `max_retries + 1` reconnection
attempts (the loop guard `retry <= max_retries` admits one more attempt
than `max_retries`), and `Client::receive` then returns the original
receive error as `ClientError::Receive` rather than looping forever or
panicking. -/
theorem C7_amended_retry_exhaustion (max_retries : Nat) (e : ProtocolError) :
    (Client.retryLoop 0 max_retries e).1 = max_retries + 1 ∧
      (Client.retryLoop 0 max_retries e).2.2 = Client.CClientError.Receive e := by
  rw [Client.retryLoop_eq max_retries e (max_retries + 1) 0 (by omega)]
  exact ⟨rfl, rfl⟩

/-- C8: the claim says handling `CommonMessage::End` leaves
`shutdown_requested()` returning true. `Client::request_shutdown` stores
`false` into the flag (`*shutdown_request_ref = false;`), so after
`handle_message` processes `End` the flag still reads false — while the
function's name, the `Closed` short-circuit in `reconnect`, and the
shutdown checks in `receive` all show the intent was to store true. -/
theorem C8_end_does_not_set_flag :
    Client.handle_message Client.initialClient
        (Client.CMessage.Common Client.CCommonMessage.End) =
      .ok (⟨false, [Client.CMessage.Common Client.CCommonMessage.End], true⟩, false) ∧
      ∀ c : Client.ClientState,
        Client.shutdown_requested (Client.request_shutdown c) = false :=
  ⟨rfl, fun _ => rfl⟩

/-- C9: `Server::send` returns `Err(ClientNotFound)` when the id has no
registry entry, and `Err(SendChannel)` when the target's channel receiver
is gone; in either failure case it leaves the registry (every session's
entry) unchanged, and the let-else chain never panics. -/
theorem C9_send_failures (reg : Server.Registry) (toId : Nat) (m : Message) :
    (Server.lookupClient reg toId = none →
        Server.sendRun reg toId m = (.error Server.SendError.ClientNotFound, reg)) ∧
      (∀ c : Server.ServerClient, Server.lookupClient reg toId = some c →
        c.senderClosed = true →
        Server.sendRun reg toId m = (.error Server.SendError.SendChannel, reg)) := by
  constructor
  · intro h
    rw [Server.sendRun, h]
  · intro c hc hcl
    rw [Server.sendRun, hc]
    simp only [Server.channelSend, hcl, if_true]

/-- Witness for C9: sending `ScreenOff` to absent id 5 and to closed
session 9. -/
theorem C9_send_failures_witness :
    Server.sendRun exampleRegistryClosed 5 (Message.Client ClientMessage.ScreenOff) =
        (.error Server.SendError.ClientNotFound, exampleRegistryClosed) ∧
      Server.sendRun exampleRegistryClosed 9 (Message.Client ClientMessage.ScreenOff) =
        (.error Server.SendError.SendChannel, exampleRegistryClosed) :=
  ⟨(C9_send_failures exampleRegistryClosed 5 (Message.Client ClientMessage.ScreenOff)).1 rfl,
    (C9_send_failures exampleRegistryClosed 9 (Message.Client ClientMessage.ScreenOff)).2
      exampleClosedClient rfl rfl⟩

/-- C10: for every session id and every `ClientMessage` variant, delivering
`IncomingMessage((id, Message::Client(m)))` to the dispatcher hits the
`unreachable!()` arm of `Server::handle_messages` and panics, terminating
the single dispatcher — even though any peer can legally encode and send
such a client-tagged message on the wire. -/
theorem C10_client_variant_dispatch_panics (lb : BuiltInfo) (reg : Server.Registry)
    (id : Nat) (m : ClientMessage) :
    Server.handleEvent lb reg
        (Server.ServerEvent.IncomingMessage id (Message.Client m)) =
      .panic PanicKind.unreachableCode := rfl

end Pdt
